import Mathlib

/-!
Verification development for the SimRobSys repository
(`src/lecture_4/pin_cheat_list.ipynb`).

The repository is a single teaching notebook.  We give a shallow/deep
embedding in two layers:

1. a deep embedding of the notebook program itself: a small Python
   statement/expression grammar rich enough to express the control-flow
   and effect constructs the claims quantify over (conditionals, loops,
   `try`/`except`, class definitions, `await`), together with a literal
   transcription of every code cell of `pin_cheat_list.ipynb`; structural
   claims (error handling, frame effects, pipeline order, straight-line
   control flow, concurrency) are decided by computation over it;

2. a shallow embedding of the library calls the notebook makes,
   faithful to how the notebook uses them: trimesh primitive
   mass/inertia arithmetic over `ℝ`, pinocchio's `SE3` rigid transforms
   as a rotation matrix plus a translation vector, and a parameterized
   run function modelling one execution of the notebook, with the
   random draw of `pin.SE3.Random()` supplied by an explicit stream.
-/

set_option autoImplicit false

namespace SimRobSys

/-! ## Deep embedding of the notebook's Python fragment -/

/-- Python expressions, as used in the notebook.  `andE` is the
short-circuit `and` operator; `awaitE` is included so that the absence
of suspension points is a statement about a grammar able to express
them.  An f-string `f'a{e}b{f}'` is `fstring [a, b] [e, f]`: the
literal pieces and the interpolated expressions. -/
inductive PyExpr where
  | name : String → PyExpr
  | attr : PyExpr → String → PyExpr
  | call : PyExpr → List PyExpr → List (String × PyExpr) → PyExpr
  | strLit : String → PyExpr
  | numLit : String → PyExpr
  | noneLit : PyExpr
  | boolLit : Bool → PyExpr
  | listLit : List PyExpr → PyExpr
  | binop : String → PyExpr → PyExpr → PyExpr
  | subscript : PyExpr → PyExpr → PyExpr
  | andE : PyExpr → PyExpr → PyExpr
  | orE : PyExpr → PyExpr → PyExpr
  | awaitE : PyExpr → PyExpr
  | fstring : List String → List PyExpr → PyExpr

/-- Python statements, as used in the notebook, together with the
compound constructs (`if`, `while`, `for`, `try`, `class`, `def`,
`with`, `raise`) that the claims assert are absent. -/
inductive PyStmt where
  | importStmt : String → Option String → PyStmt
  | fromImport : String → List String → PyStmt
  | assign : String → PyExpr → PyStmt
  | assignTuple : List String → PyExpr → PyStmt
  | attrAssign : PyExpr → String → PyExpr → PyStmt
  | exprStmt : PyExpr → PyStmt
  | comment : String → PyStmt
  | ifStmt : PyExpr → List PyStmt → List PyStmt → PyStmt
  | whileStmt : PyExpr → List PyStmt → PyStmt
  | forStmt : String → PyExpr → List PyStmt → PyStmt
  | tryStmt : List PyStmt → List (String × List PyStmt) → List PyStmt → PyStmt
  | classDef : String → List String → List PyStmt → PyStmt
  | funcDef : String → List String → List PyStmt → PyStmt
  | withStmt : PyExpr → List PyStmt → PyStmt
  | raiseStmt : Option PyExpr → PyStmt

/-- A notebook cell: markdown text, or a list of Python statements. -/
inductive Cell where
  | markdown : Cell
  | code : List PyStmt → Cell

open PyExpr PyStmt

/-- Transcription of `src/lecture_4/pin_cheat_list.ipynb`: the cells in
their notebook order (markdown cells kept so that indices match the
cell numbering `cell-0` … `cell-41`). -/
def notebookCells : List Cell :=
  [ Cell.markdown                                 -- cell-0
  , Cell.markdown                                 -- cell-1
  , Cell.code                                     -- cell-2
      [ importStmt ("trimesh") (some ("tr"))
      , assign ("box_one")
          (call (attr (attr (name ("tr")) ("primitives")) ("Box")) []
            [(("extents"),
              listLit [numLit (".4"), numLit (".2"), numLit (".1")])])
      , attrAssign (name ("box_one")) ("density") (numLit ("7800"))
      , exprStmt (call (name ("print"))
          [fstring [("mass = ")] [attr (name ("box_one")) ("mass")]] [])
      , exprStmt (call (name ("print"))
          [fstring [("inertia = ")] [attr (name ("box_one")) ("moment_inertia")]] []) ]
  , Cell.markdown                                 -- cell-3
  , Cell.code                                     -- cell-4
      [ assign ("cylinder")
          (call (attr (attr (name ("tr")) ("primitives")) ("Cylinder")) []
            [(("radius"), numLit (".05")), (("height"), numLit (".15"))])
      , assign ("cylinder_mass") (numLit ("5"))
      , attrAssign (name ("cylinder")) ("density")
          (binop ("div") (name ("cylinder_mass"))
            (attr (name ("cylinder")) ("volume")))
      , exprStmt (call (name ("print"))
          [attr (name ("cylinder")) ("moment_inertia")] []) ]
  , Cell.markdown                                 -- cell-5
  , Cell.code                                     -- cell-6
      [ assign ("rotation")
          (call (attr (attr (name ("tr")) ("transformations")) ("euler_matrix"))
            [numLit ("1"), numLit ("0"), numLit ("0")]
            [(("axes"), strLit ("sxyz"))])
      , exprStmt (call (attr (name ("cylinder")) ("apply_transform"))
          [name ("rotation")] [])
      , exprStmt (call (attr (name ("cylinder")) ("show")) [] [])
      , exprStmt (call (name ("print"))
          [attr (name ("cylinder")) ("moment_inertia")] []) ]
  , Cell.markdown                                 -- cell-7
  , Cell.markdown                                 -- cell-8
  , Cell.code                                     -- cell-9
      [ fromImport ("os") [("path")]
      , importStmt ("pinocchio") (some ("pin"))
      , fromImport ("pinocchio.visualize") [("MeshcatVisualizer")]
      , importStmt ("meshcat") none ]
  , Cell.code                                     -- cell-10
      [ assign ("MODEL_NAME") (strLit ("two_bodies.urdf"))
      , assign ("ROOT")
          (call (attr (name ("path")) ("abspath")) [strLit ("")] [])
      , assign ("FOLDER_PATH")
          (call (attr (name ("path")) ("join")) [name ("ROOT"), strLit ("")] [])
      , assign ("MODEL_PATH")
          (call (attr (name ("path")) ("join"))
            [name ("FOLDER_PATH"), name ("MODEL_NAME")] [])
      , assignTuple [("model"), ("collision_model"), ("visual_model")]
          (call (attr (name ("pin")) ("buildModelsFromUrdf"))
            [name ("MODEL_PATH"), noneLit,
             call (attr (name ("pin")) ("JointModelFreeFlyer")) [] []] [])
      , assign ("data")
          (call (attr (name ("model")) ("createData")) [] []) ]
  , Cell.code                                     -- cell-11
      [ assign ("viz")
          (call (name ("MeshcatVisualizer"))
            [name ("model"), name ("collision_model"), name ("visual_model")] [])
      , attrAssign (name ("viz")) ("viewer")
          (call (attr (name ("meshcat")) ("Visualizer")) []
            [(("zmq_url"), strLit ("tcp://127.0.0.1:6000"))])
      , exprStmt (call (attr (name ("viz")) ("clean")) [] [])
      , comment ("meshcat-server --open")
      , comment ("Load the robot in the viewer.")
      , exprStmt (call (attr (name ("viz")) ("loadViewerModel")) [] [])
      , comment ("Display a robot configuration.")
      , assign ("q0")
          (call (attr (name ("pin")) ("neutral")) [name ("model")] [])
      , exprStmt (call (attr (name ("viz")) ("display")) [name ("q0")] [])
      , exprStmt (call (attr (name ("viz")) ("displayVisuals")) [boolLit true] []) ]
  , Cell.code                                     -- cell-12
      [ exprStmt (andE
          (call (name ("hasattr"))
            [attr (name ("viz")) ("viewer"), strLit ("jupyter_cell")] [])
          (call (attr (attr (name ("viz")) ("viewer")) ("jupyter_cell")) [] [])) ]
  , Cell.markdown                                 -- cell-13
  , Cell.code [ exprStmt (attr (name ("model")) ("name")) ]      -- cell-14
  , Cell.code                                     -- cell-15
      [ exprStmt (call (attr (attr (name ("model")) ("names")) ("tolist")) [] []) ]
  , Cell.code                                     -- cell-16
      [ exprStmt (call (attr (attr (name ("model")) ("joints")) ("tolist")) [] []) ]
  , Cell.code                                     -- cell-17
      [ exprStmt (call
          (attr (attr (name ("model")) ("jointPlacements")) ("tolist")) [] []) ]
  , Cell.code                                     -- cell-18
      [ exprStmt (call (attr (attr (name ("model")) ("inertias")) ("tolist")) [] []) ]
  , Cell.code                                     -- cell-19
      [ exprStmt (call (name ("print"))
          [attr (name ("model")) ("nq"), attr (name ("model")) ("nv")] []) ]
  , Cell.markdown                                 -- cell-20
  , Cell.code                                     -- cell-21
      [ assign ("q")
          (call (attr (name ("pin")) ("neutral")) [name ("model")] [])
      , exprStmt (call (attr (name ("pin")) ("framesForwardKinematics"))
          [name ("model"), name ("data"), name ("q")] []) ]
  , Cell.code                                     -- cell-22
      [ exprStmt (call (attr (attr (name ("data")) ("joints")) ("tolist")) [] []) ]
  , Cell.code                                     -- cell-23
      [ exprStmt (call (attr (attr (name ("data")) ("oMi")) ("tolist")) [] []) ]
  , Cell.code                                     -- cell-24
      [ exprStmt (call (attr (attr (name ("data")) ("oMf")) ("tolist")) [] []) ]
  , Cell.code                                     -- cell-25
      [ exprStmt (call (attr (attr (name ("data")) ("v")) ("tolist")) [] []) ]
  , Cell.code                                     -- cell-26
      [ exprStmt (call (attr (attr (name ("data")) ("a")) ("tolist")) [] []) ]
  , Cell.code                                     -- cell-27
      [ exprStmt (call (attr (attr (name ("data")) ("f")) ("tolist")) [] []) ]
  , Cell.code                                     -- cell-28
      [ exprStmt (call (attr (attr (name ("data")) ("M")) ("tolist")) [] []) ]
  , Cell.code                                     -- cell-29
      [ exprStmt (call (attr (attr (name ("data")) ("nle")) ("tolist")) [] []) ]
  , Cell.code [ exprStmt (attr (name ("data")) ("hg")) ]         -- cell-30
  , Cell.code [ exprStmt (attr (name ("data")) ("Ag")) ]         -- cell-31
  , Cell.code [ exprStmt (attr (name ("data")) ("Ig")) ]         -- cell-32
  , Cell.code                                     -- cell-33
      [ assign ("LINK_NAME") (strLit ("body_two"))
      , assign ("LINK_ID")
          (call (attr (name ("model")) ("getBodyId")) [name ("LINK_NAME")] [])
      , assign ("q")
          (call (attr (name ("pin")) ("neutral")) [name ("model")] [])
      , exprStmt (call (attr (name ("pin")) ("framesForwardKinematics"))
          [name ("model"), name ("data"), name ("q")] [])
      , assign ("iMd")
          (subscript (attr (name ("data")) ("oMf")) (name ("LINK_ID")))
      , exprStmt (call (name ("print")) [name ("iMd")] []) ]
  , Cell.code                                     -- cell-34
      [ assign ("M")
          (call (attr (attr (name ("pin")) ("SE3")) ("Random")) [] [])
      , exprStmt (call (name ("print")) [name ("M")] []) ]
  , Cell.code [ exprStmt (attr (name ("M")) ("rotation")) ]      -- cell-35
  , Cell.code [ exprStmt (attr (name ("M")) ("translation")) ]   -- cell-36
  , Cell.code                                     -- cell-37
      [ exprStmt (call (name ("print"))
          [call (attr (name ("pin")) ("SE3"))
            [attr (name ("M")) ("rotation"), attr (name ("M")) ("translation")] []]
          []) ]
  , Cell.code                                     -- cell-38
      [ exprStmt (call (name ("print"))
          [call (attr (name ("M")) ("inverse")) [] []] []) ]
  , Cell.code                                     -- cell-39
      [ exprStmt (call (name ("print"))
          [binop ("mul") (name ("M"))
            (call (attr (name ("M")) ("inverse")) [] [])] []) ]
  , Cell.code                                     -- cell-40
      [ exprStmt (call (name ("print")) [attr (name ("M")) ("action")] []) ]
  , Cell.code                                     -- cell-41
      [ exprStmt (call (name ("print")) [attr (name ("M")) ("homogeneous")] []) ] ]

/-! ## Syntactic analyses over the embedded notebook -/

mutual

/-- Does `p` hold of `e` or of any subexpression of `e`? -/
def exprHas (p : PyExpr → Bool) : PyExpr → Bool
  | .name s => p (.name s)
  | .attr e f => p (.attr e f) || exprHas p e
  | .call f args kwargs =>
      p (.call f args kwargs) || exprHas p f || exprsHave p args ||
        kwargsHave p kwargs
  | .strLit s => p (.strLit s)
  | .numLit s => p (.numLit s)
  | .noneLit => p .noneLit
  | .boolLit b => p (.boolLit b)
  | .listLit xs => p (.listLit xs) || exprsHave p xs
  | .binop o a b => p (.binop o a b) || exprHas p a || exprHas p b
  | .subscript a b => p (.subscript a b) || exprHas p a || exprHas p b
  | .andE a b => p (.andE a b) || exprHas p a || exprHas p b
  | .orE a b => p (.orE a b) || exprHas p a || exprHas p b
  | .awaitE e => p (.awaitE e) || exprHas p e
  | .fstring ls es => p (.fstring ls es) || exprsHave p es

/-- Does `p` hold somewhere in one of the expressions of a list? -/
def exprsHave (p : PyExpr → Bool) : List PyExpr → Bool
  | [] => false
  | e :: es => exprHas p e || exprsHave p es

/-- Does `p` hold somewhere in one of the keyword-argument values? -/
def kwargsHave (p : PyExpr → Bool) : List (String × PyExpr) → Bool
  | [] => false
  | (_, e) :: es => exprHas p e || kwargsHave p es

end

mutual

/-- All variable names an expression reads. -/
def exprReads : PyExpr → List String
  | .name s => [s]
  | .attr e _ => exprReads e
  | .call f args kwargs =>
      exprReads f ++ exprsRead args ++ kwargsRead kwargs
  | .strLit _ => []
  | .numLit _ => []
  | .noneLit => []
  | .boolLit _ => []
  | .listLit xs => exprsRead xs
  | .binop _ a b => exprReads a ++ exprReads b
  | .subscript a b => exprReads a ++ exprReads b
  | .andE a b => exprReads a ++ exprReads b
  | .orE a b => exprReads a ++ exprReads b
  | .awaitE e => exprReads e
  | .fstring _ es => exprsRead es

/-- All variable names read by a list of expressions. -/
def exprsRead : List PyExpr → List String
  | [] => []
  | e :: es => exprReads e ++ exprsRead es

/-- All variable names read by keyword-argument values. -/
def kwargsRead : List (String × PyExpr) → List String
  | [] => []
  | (_, e) :: es => exprReads e ++ kwargsRead es

end

/-- Is the statement one of Python's compound/control-flow constructs
(`if`, `while`, `for`, `try`, `class`, `def`, `with`, `raise`)?  The
notebook contains none, so a top-level scan over its statements covers
every statement of the program. -/
def stmtIsCompound : PyStmt → Bool
  | .ifStmt .. => true
  | .whileStmt .. => true
  | .forStmt .. => true
  | .tryStmt .. => true
  | .classDef .. => true
  | .funcDef .. => true
  | .withStmt .. => true
  | .raiseStmt .. => true
  | _ => false

/-- Is the statement a `try`/`except` block? -/
def stmtIsTry : PyStmt → Bool
  | .tryStmt .. => true
  | _ => false

/-- Is the statement a class definition (in particular, the definition
of a custom exception type)? -/
def stmtIsClassDef : PyStmt → Bool
  | .classDef .. => true
  | _ => false

/-- Is the statement a `raise` (re-raising or wrapping an exception)? -/
def stmtIsRaise : PyStmt → Bool
  | .raiseStmt .. => true
  | _ => false

/-- Is the statement a loop (`while` or `for`)? -/
def stmtIsLoop : PyStmt → Bool
  | .whileStmt .. => true
  | .forStmt .. => true
  | _ => false

/-- Is the statement an `if`? -/
def stmtIsIf : PyStmt → Bool
  | .ifStmt .. => true
  | _ => false

/-- The top-level expressions of a statement (for the simple statement
forms the notebook uses; compound statements contribute their guard). -/
def stmtExprs : PyStmt → List PyExpr
  | .importStmt _ _ => []
  | .fromImport _ _ => []
  | .assign _ e => [e]
  | .assignTuple _ e => [e]
  | .attrAssign obj _ e => [obj, e]
  | .exprStmt e => [e]
  | .comment _ => []
  | .ifStmt c _ _ => [c]
  | .whileStmt c _ => [c]
  | .forStmt _ e _ => [e]
  | .tryStmt _ _ _ => []
  | .classDef _ _ _ => []
  | .funcDef _ _ _ => []
  | .withStmt e _ => [e]
  | .raiseStmt e => e.toList

/-- The statements of a cell (markdown cells have none). -/
def cellStmts : Cell → List PyStmt
  | .markdown => []
  | .code ss => ss

/-- All statements of the notebook, in execution order. -/
def allStmts : List PyStmt :=
  notebookCells.flatMap cellStmts

/-- Does predicate `p` hold of some expression occurring in the cell? -/
def cellHasExpr (p : PyExpr → Bool) (c : Cell) : Bool :=
  (cellStmts c).any (fun s => exprsHave p (stmtExprs s))

/-- Indices (= notebook cell numbers) of the cells in which predicate
`p` holds of some expression. -/
def cellsWithExpr (p : PyExpr → Bool) : List ℕ :=
  (notebookCells.enum.filter (fun ci => cellHasExpr p ci.2)).map (·.1)

/-! ### Effect and call detectors -/

/-- A call carrying a `zmq_url` keyword argument whose value is a
`tcp://…` URL: the construct by which `meshcat.Visualizer` opens a ZMQ
network connection in cell-11. -/
def exprOpensNetwork : PyExpr → Bool
  | .call _ _ kwargs =>
      kwargs.any (fun kv =>
        kv.1 == ("zmq_url") &&
          (match kv.2 with
           | .strLit s => s.take 6 == ("tcp://")
           | _ => false))
  | _ => false

/-- Reads of the process environment: `os.environ` or `getenv`. -/
def exprReadsEnviron : PyExpr → Bool
  | .attr _ f => f == ("environ") || f == ("getenv")
  | .name s => s == ("getenv")
  | _ => false

/-- Use of a command-line interface: `sys.argv` or `argparse`. -/
def exprUsesCli : PyExpr → Bool
  | .attr _ f => f == ("argv") || f == ("ArgumentParser")
  | .name s => s == ("argparse")
  | _ => false

/-- Calls that persist state to disk: `open`, or a `write`/`dump`/
`save`/`export` method call. -/
def exprWritesFile : PyExpr → Bool
  | .call (.name f) _ _ => f == ("open")
  | .call (.attr _ f) _ _ =>
      [("write"), ("dump"), ("save"), ("export"), ("to_pickle"),
       ("to_csv")].contains f
  | _ => false

/-- A call whose callee is an attribute with the given name. -/
def exprCallsMethod (m : String) : PyExpr → Bool
  | .call (.attr _ f) _ _ => f == m
  | _ => false

/-- A read of one of the printed `model` fields
(`model.name`, `model.names`, `model.joints`, `model.jointPlacements`,
`model.inertias`, `model.nq`, `model.nv`). -/
def exprReadsModelField : PyExpr → Bool
  | .attr (.name b) f =>
      b == ("model") &&
        [("name"), ("names"), ("joints"), ("jointPlacements"),
         ("inertias"), ("nq"), ("nv")].contains f
  | _ => false

/-- A read of any field of `data`. -/
def exprReadsDataField : PyExpr → Bool
  | .attr (.name b) _ => b == ("data")
  | _ => false

/-- A use of the trimesh mass-properties interface: construction of a
`tr.primitives` shape, or a read of `mass`/`moment_inertia`/`volume`. -/
def exprTrimeshInertia : PyExpr → Bool
  | .attr e f =>
      [("mass"), ("moment_inertia"), ("volume")].contains f ||
        (f == ("primitives") &&
          (match e with
           | .name b => b == ("tr")
           | _ => false))
  | _ => false

/-- The call `pin.SE3.Random()`, the notebook's only randomness. -/
def exprIsRandomCall : PyExpr → Bool
  | .call (.attr (.attr (.name b) s) r) _ _ =>
      b == ("pin") && s == ("SE3") && r == ("Random")
  | _ => false

/-- Short-circuit boolean operators (`and` / `or`): expression-level
conditional branches. -/
def exprIsShortCircuit : PyExpr → Bool
  | .andE _ _ => true
  | .orE _ _ => true
  | _ => false

/-- An `await` expression (a suspension point). -/
def exprIsAwait : PyExpr → Bool
  | .awaitE _ => true
  | _ => false

/-- Calls that would spawn a thread or a process. -/
def exprSpawns : PyExpr → Bool
  | .call (.name f) _ _ =>
      [("Thread"), ("Process"), ("Popen"), ("fork"), ("spawn")].contains f
  | .call (.attr _ f) _ _ =>
      [("Thread"), ("Process"), ("Popen"), ("fork"), ("spawn"),
       ("start_new_thread"), ("submit"), ("apply_async")].contains f
  | _ => false

/-! ### Imports and inter-cell data flow -/

/-- The modules imported by a statement. -/
def stmtImports : PyStmt → List String
  | .importStmt m _ => [m]
  | .fromImport m _ => [m]
  | _ => []

/-- All modules the notebook imports. -/
def importedModules : List String :=
  allStmts.flatMap stmtImports

/-- Python's standard concurrency/parallelism modules. -/
def concurrencyModules : List String :=
  [("threading"), ("multiprocessing"), ("asyncio"), ("subprocess"),
   ("concurrent.futures"), ("_thread")]

/-- The session variables a statement binds. -/
def stmtTargets : PyStmt → List String
  | .importStmt m a => [a.getD m]
  | .fromImport _ ns => ns
  | .assign t _ => [t]
  | .assignTuple ts _ => ts
  | _ => []

/-- The session variables a statement reads (attribute assignments read
the object they mutate). -/
def stmtReadVars : PyStmt → List String :=
  fun s => exprsRead (stmtExprs s)

/-- Names available in every cell without a prior assignment: the two
Python builtins the notebook uses. -/
def pyBuiltins : List String :=
  [("print"), ("hasattr")]

/-- Fold over statements: check that every name read was bound by an
earlier statement (or is a builtin), accumulating bindings. -/
def stmtsScoped : List String → List PyStmt → Bool × List String
  | env, [] => (true, env)
  | env, s :: ss =>
      let ok := (stmtReadVars s).all (fun n => (env ++ pyBuiltins).contains n)
      let res := stmtsScoped (env ++ stmtTargets s) ss
      (ok && res.1, res.2)

/-- Check that across the whole notebook every name a cell reads was
bound by an earlier (or the same) cell's assignments or imports: the
only state shared between cells is the interactive session's
variables. -/
def cellsScoped : List String → List Cell → Bool
  | _, [] => true
  | env, c :: cs =>
      let res := stmtsScoped env (cellStmts c)
      res.1 && cellsScoped res.2 cs

/-! ## The URDF joint graph -/

/-- URDF joint types used by `two_bodies.urdf`. -/
inductive JointType where
  | fixed
  | floating
deriving DecidableEq

/-- A URDF `joint` element: name, type, parent link, child link. -/
structure UrdfJoint where
  jointName : String
  jtype : JointType
  parent : String
  child : String
deriving DecidableEq

/-- A URDF model: its links and joints. -/
structure UrdfModel where
  links : List String
  joints : List UrdfJoint

/-- Modelled from the spec: the file `two_bodies.urdf` itself is not
under `src/`; cell-1 of the notebook documents its content: three
links — `world` acting as a fixed root, `body_one` connected with
`world` via `fixed_joint`, `body_two` related to `world` via
`floating_joint`. -/
def twoBodiesUrdf : UrdfModel :=
  { links := [("world"), ("body_one"), ("body_two")]
  , joints :=
      [ { jointName := ("fixed_joint"), jtype := JointType.fixed
        , parent := ("world"), child := ("body_one") }
      , { jointName := ("floating_joint"), jtype := JointType.floating
        , parent := ("world"), child := ("body_two") } ] }

/-- The joints whose child is the given link. -/
def parentJoints (u : UrdfModel) (l : String) : List UrdfJoint :=
  u.joints.filter (fun j => j.child == l)

/-- The parent link of a link, through its first parent joint. -/
def parentLink (u : UrdfModel) (l : String) : Option String :=
  (parentJoints u l).head?.map (fun j => j.parent)

/-- Within `n` steps of following parent joints, does `l` reach `root`? -/
def reachesRoot (u : UrdfModel) (root : String) : ℕ → String → Bool
  | 0, l => l == root
  | n + 1, l =>
      l == root ||
        (match parentLink u l with
         | some p => reachesRoot u root n p
         | none => false)

/-- The joint graph is a tree rooted at `root`: the root is a link with
no parent joint, every other link has exactly one parent joint, and
every link reaches the root by following parent joints within
`links.length` steps (so in particular no link lies on a cycle). -/
def isTreeRootedAt (u : UrdfModel) (root : String) : Bool :=
  u.links.contains root &&
  (parentJoints u root).isEmpty &&
  u.links.all (fun l => l == root || (parentJoints u l).length == 1) &&
  u.links.all (fun l => reachesRoot u root u.links.length l)

/-! ## trimesh mass properties (cells 2, 4 and 6) -/

/-- The 3×3 rotation block of trimesh
`transformations.euler_matrix(a, 0, 0, axes='sxyz')`: a rotation by
angle `a` about the x axis. -/
noncomputable def eulerX (a : ℝ) : Matrix (Fin 3) (Fin 3) ℝ :=
  ![![1, 0, 0],
    ![0, Real.cos a, -Real.sin a],
    ![0, Real.sin a, Real.cos a]]

/-- A trimesh `primitives.Box`: its extents and its density
(trimesh's default density is 1 until assigned). -/
structure TrBox where
  extents : Fin 3 → ℝ
  density : ℝ

/-- `Box.volume`: the product of the three extents. -/
def TrBox.volume (b : TrBox) : ℝ :=
  b.extents 0 * b.extents 1 * b.extents 2

/-- `Box.mass = density · volume`. -/
def TrBox.mass (b : TrBox) : ℝ :=
  b.density * b.volume

/-- `Box.moment_inertia`: the principal inertia tensor of a solid box,
diag(m(b²+c²)/12, m(a²+c²)/12, m(a²+b²)/12). -/
noncomputable def TrBox.moment_inertia (b : TrBox) : Matrix (Fin 3) (Fin 3) ℝ :=
  Matrix.diagonal
    ![b.mass * ((b.extents 1) ^ 2 + (b.extents 2) ^ 2) / 12,
      b.mass * ((b.extents 0) ^ 2 + (b.extents 2) ^ 2) / 12,
      b.mass * ((b.extents 0) ^ 2 + (b.extents 1) ^ 2) / 12]

/-- cell-2: `box_one = tr.primitives.Box(extents=[.4, .2, .1])`
followed by `box_one.density = 7800`. -/
noncomputable def box_one : TrBox :=
  { extents := ![0.4, 0.2, 0.1], density := 7800 }

/-- A trimesh `primitives.Cylinder`: radius, height, density, and the
rotation block of the accumulated primitive transform (identity until
`apply_transform` is called). -/
structure TrCylinder where
  radius : ℝ
  height : ℝ
  density : ℝ
  rot : Matrix (Fin 3) (Fin 3) ℝ

/-- `Cylinder.volume = π r² h` (a function of radius and height only,
so invariant under the stored rotation). -/
noncomputable def TrCylinder.volume (c : TrCylinder) : ℝ :=
  Real.pi * c.radius ^ 2 * c.height

/-- `Cylinder.mass = density · volume`. -/
noncomputable def TrCylinder.mass (c : TrCylinder) : ℝ :=
  c.density * c.volume

/-- The principal-frame inertia tensor of a solid cylinder of mass `m`,
radius `r` and height `h` (trimesh `inertia.cylinder_inertia`):
diag(m(3r²+h²)/12, m(3r²+h²)/12, m r²/2). -/
noncomputable def cylinderInertia (m r h : ℝ) : Matrix (Fin 3) (Fin 3) ℝ :=
  Matrix.diagonal
    ![m * (3 * r ^ 2 + h ^ 2) / 12,
      m * (3 * r ^ 2 + h ^ 2) / 12,
      m * r ^ 2 / 2]

/-- `Cylinder.moment_inertia`: the principal inertia conjugated by the
accumulated rotation (trimesh `inertia.transform_inertia`). -/
noncomputable def TrCylinder.moment_inertia (c : TrCylinder) :
    Matrix (Fin 3) (Fin 3) ℝ :=
  c.rot * cylinderInertia c.mass c.radius c.height * c.rot.transpose

/-- `apply_transform` with a pure rotation: composes the rotation onto
the stored transform; radius, height and density are unchanged. -/
def TrCylinder.apply_transform (R : Matrix (Fin 3) (Fin 3) ℝ)
    (c : TrCylinder) : TrCylinder :=
  { c with rot := R * c.rot }

/-- cell-4: `cylinder = tr.primitives.Cylinder(radius=.05, height=.15)`,
with trimesh's default density 1 and identity transform. -/
noncomputable def cylinder0 : TrCylinder :=
  { radius := 0.05, height := 0.15, density := 1, rot := 1 }

/-- cell-4 continued:
`cylinder.density = cylinder_mass / cylinder.volume` with
`cylinder_mass = 5`. -/
noncomputable def cylinder4 : TrCylinder :=
  { cylinder0 with density := 5 / cylinder0.volume }

/-- cell-6: `cylinder.apply_transform(rotation)` where
`rotation = tr.transformations.euler_matrix(1, 0, 0, axes='sxyz')`. -/
noncomputable def cylinder6 : TrCylinder :=
  cylinder4.apply_transform (eulerX 1)

/-! ## pinocchio rigid transforms (`pin.SE3`) -/

/-- A `pin.SE3` value: a rotation matrix and a translation vector. -/
structure SE3 where
  rotation : Matrix (Fin 3) (Fin 3) ℝ
  translation : Fin 3 → ℝ

/-- The identity transform `pin.SE3.Identity()`: identity rotation,
zero translation. -/
noncomputable def SE3.one : SE3 :=
  { rotation := 1, translation := 0 }

/-- Composition `M1 * M2 = (R1 R2, p1 + R1 p2)`. -/
noncomputable def SE3.mul (A B : SE3) : SE3 :=
  { rotation := A.rotation * B.rotation
  , translation := A.translation + A.rotation.mulVec B.translation }

/-- `M.inverse() = (Rᵀ, −Rᵀ p)`. -/
noncomputable def SE3.inverse (A : SE3) : SE3 :=
  { rotation := A.rotation.transpose
  , translation := -(A.rotation.transpose.mulVec A.translation) }

/-- The skew-symmetric cross-product matrix of a 3-vector. -/
noncomputable def skew (p : Fin 3 → ℝ) : Matrix (Fin 3) (Fin 3) ℝ :=
  ![![0, -(p 2), p 1],
    ![p 2, 0, -(p 0)],
    ![-(p 1), p 0, 0]]

/-- `M.action`: the 6×6 spatial action matrix, in block form
`[[R, p̂R], [0, R]]`. -/
noncomputable def SE3.action (A : SE3) :
    Matrix (Fin 3 ⊕ Fin 3) (Fin 3 ⊕ Fin 3) ℝ :=
  Matrix.fromBlocks A.rotation (skew A.translation * A.rotation) 0 A.rotation

/-- `M.homogeneous`: the 4×4 homogeneous matrix `[[R, p], [0, 1]]`. -/
noncomputable def SE3.homogeneous (A : SE3) :
    Matrix (Fin 3 ⊕ Fin 1) (Fin 3 ⊕ Fin 1) ℝ :=
  Matrix.fromBlocks A.rotation (Matrix.of fun i _ => A.translation i) 0 1

/-! ## One run of the notebook -/

/-- A value a cell outputs (prints or returns for display). -/
inductive Val where
  | num : ℝ → Val
  | mat3 : Matrix (Fin 3) (Fin 3) ℝ → Val
  | vec3 : (Fin 3 → ℝ) → Val
  | mat6 : Matrix (Fin 3 ⊕ Fin 3) (Fin 3 ⊕ Fin 3) ℝ → Val
  | mat4 : Matrix (Fin 3 ⊕ Fin 1) (Fin 3 ⊕ Fin 1) ℝ → Val
  | se3 : SE3 → Val
  | opaqueOut : String → Val

/-- The deterministic pinocchio/meshcat results the notebook inspects:
the printed value of each `model`/`data` field after
`pin.framesForwardKinematics(model, data, pin.neutral(model))`, the
frame lookup of cell-33, and the viewer's jupyter widget of cell-12.
These are functions of the parsed URDF model and of nothing else, so a
single `PinLib` value is shared by every run of the notebook. -/
structure PinLib where
  inspect : String → Val
  getBodyId : String → ℕ
  oMfAt : ℕ → SE3
  jupyterCell : Val

/-- One run of the notebook: the outputs of cells 0–41 in order, as a
function of the deterministic library results `lib` and of the stream
`draws` of values returned by `pin.SE3.Random()` (cell-34 makes the
only draw).  Markdown cells and cells with no output contribute `[]`;
the displayed (not printed) scene widget of `cylinder.show()` in
cell-6 is itself a deterministic function of `cylinder` and is omitted
from the output list. -/
noncomputable def runNotebook (lib : PinLib) (draws : ℕ → SE3) :
    List (List Val) :=
  let M := draws 0
  [ []                                                        -- cell-0
  , []                                                        -- cell-1
  , [Val.num box_one.mass, Val.mat3 box_one.moment_inertia]   -- cell-2
  , []                                                        -- cell-3
  , [Val.mat3 cylinder4.moment_inertia]                       -- cell-4
  , []                                                        -- cell-5
  , [Val.mat3 cylinder6.moment_inertia]                       -- cell-6
  , []                                                        -- cell-7
  , []                                                        -- cell-8
  , []                                                        -- cell-9
  , []                                                        -- cell-10
  , []                                                        -- cell-11
  , [lib.jupyterCell]                                         -- cell-12
  , []                                                        -- cell-13
  , [lib.inspect ("model.name")]                              -- cell-14
  , [lib.inspect ("model.names")]                             -- cell-15
  , [lib.inspect ("model.joints")]                            -- cell-16
  , [lib.inspect ("model.jointPlacements")]                   -- cell-17
  , [lib.inspect ("model.inertias")]                          -- cell-18
  , [lib.inspect ("model.nq"), lib.inspect ("model.nv")]      -- cell-19
  , []                                                        -- cell-20
  , []                                                        -- cell-21
  , [lib.inspect ("data.joints")]                             -- cell-22
  , [lib.inspect ("data.oMi")]                                -- cell-23
  , [lib.inspect ("data.oMf")]                                -- cell-24
  , [lib.inspect ("data.v")]                                  -- cell-25
  , [lib.inspect ("data.a")]                                  -- cell-26
  , [lib.inspect ("data.f")]                                  -- cell-27
  , [lib.inspect ("data.M")]                                  -- cell-28
  , [lib.inspect ("data.nle")]                                -- cell-29
  , [lib.inspect ("data.hg")]                                 -- cell-30
  , [lib.inspect ("data.Ag")]                                 -- cell-31
  , [lib.inspect ("data.Ig")]                                 -- cell-32
  , [Val.se3 (lib.oMfAt (lib.getBodyId ("body_two")))]        -- cell-33
  , [Val.se3 M]                                               -- cell-34
  , [Val.mat3 M.rotation]                                     -- cell-35
  , [Val.vec3 M.translation]                                  -- cell-36
  , [Val.se3 (SE3.mk M.rotation M.translation)]               -- cell-37
  , [Val.se3 M.inverse]                                       -- cell-38
  , [Val.se3 (M.mul M.inverse)]                               -- cell-39
  , [Val.mat6 M.action]                                       -- cell-40
  , [Val.mat4 M.homogeneous]                                  -- cell-41
  ]

/-- A first concrete SE3 value a run's `pin.SE3.Random()` may return:
the identity rotation with zero translation. -/
noncomputable def sampleA : SE3 :=
  { rotation := 1, translation := ![0, 0, 0] }

/-- A second concrete SE3 value a run's `pin.SE3.Random()` may return:
a half-turn about the x axis with unit x translation. -/
noncomputable def sampleB : SE3 :=
  { rotation := Matrix.diagonal ![1, -1, -1], translation := ![1, 0, 0] }

/-! ## Claims -/

/-- Claim C1: every failure arising while the notebook runs propagates
out unchanged.  The notebook contains no compound statement at all —
in particular no `try`/`except` (no cell catches, wraps, recovers from
or retries after a library exception), no `raise` (nothing re-raises
or wraps), no class definition (no custom error type is defined), and
no loop (nothing retries); absent any handler, a Python exception
raised by trimesh, pinocchio or meshcat — or by the URDF load at
`MODEL_PATH` — terminates the run unchanged. -/
theorem claim_c1_exceptions_propagate :
    allStmts.all (fun s => !stmtIsCompound s) = true ∧
    allStmts.all (fun s => !stmtIsTry s) = true ∧
    allStmts.all (fun s => !stmtIsClassDef s) = true ∧
    allStmts.all (fun s => !stmtIsRaise s) = true ∧
    allStmts.all (fun s => !stmtIsLoop s) = true := by
  decide

/-- Claim C2: the joint graph of the loaded URDF model is a tree
rooted at the fixed link `world`: exactly three links — `world`,
`body_one` connected to `world` by a fixed joint, `body_two` connected
to `world` by a floating joint — with every link other than `world`
having exactly one parent joint and no cycles.  (`twoBodiesUrdf` is
modelled from the notebook's description of `two_bodies.urdf`, which
is not part of the sources.) -/
theorem claim_c2_urdf_tree :
    twoBodiesUrdf.links = [("world"), ("body_one"), ("body_two")] ∧
    ((parentJoints twoBodiesUrdf ("body_one")).map
        (fun j => (j.parent, j.jtype))) = [(("world"), JointType.fixed)] ∧
    ((parentJoints twoBodiesUrdf ("body_two")).map
        (fun j => (j.parent, j.jtype))) = [(("world"), JointType.floating)] ∧
    isTreeRootedAt twoBodiesUrdf ("world") = true := by
  decide

/-- Counterexample to claim C3 as stated: the notebook does open a
network connection — cell-11 constructs
`meshcat.Visualizer(zmq_url="tcp://127.0.0.1:6000")`, a ZMQ socket
connection to the meshcat server, so the cells opening a network
connection are not none: they are exactly cell 11. -/
theorem claim_c3_counterexample :
    cellsWithExpr exprOpensNetwork ≠ [] ∧
    cellsWithExpr exprOpensNetwork = [11] := by
  decide

/-- Claim C3 (amended): running the notebook exposes no CLI, reads no
environment variable, and persists no application state beyond the
URDF file — but it does open exactly one network connection, the ZMQ
connection of cell-11 to the meshcat visualizer at
`tcp://127.0.0.1:6000`. -/
theorem claim_c3_external_interfaces :
    cellsWithExpr exprUsesCli = [] ∧
    cellsWithExpr exprReadsEnviron = [] ∧
    cellsWithExpr exprWritesFile = [] ∧
    cellsWithExpr exprOpensNetwork = [11] := by
  decide

/-- Counterexample to claim C4 as stated: the pipeline is not executed
in the claimed fixed order "parse, then forward kinematics, then print
model and data fields", and a stage is re-run.  Model fields are
printed in cells 14–19, before the first `framesForwardKinematics`
call of cell 21; and forward kinematics runs twice (cells 21 and 33),
the second time after the data fields were printed in cells 22–32. -/
theorem claim_c4_counterexample :
    cellsWithExpr exprReadsModelField = [14, 15, 16, 17, 18, 19] ∧
    cellsWithExpr (exprCallsMethod ("framesForwardKinematics")) = [21, 33] := by
  decide

/-- Claim C4 (amended): the data flow is linear in this order — the
trimesh mass/inertia computations (cells 2, 4, 6) precede URDF parsing
(cell 10); parsing precedes the printing of the model fields
(cells 14–19) and the first forward-kinematics call (cell 21); the
data fields are printed after that call (cells 22–33); forward
kinematics is invoked once more in cell 33 before the frame lookup;
and no stage feeds back into an earlier one: every name a cell reads
was bound by an earlier cell (or earlier statement of the same cell),
so values flow only forward. -/
theorem claim_c4_pipeline :
    cellsWithExpr exprTrimeshInertia = [2, 4, 6] ∧
    cellsWithExpr (exprCallsMethod ("buildModelsFromUrdf")) = [10] ∧
    cellsWithExpr exprReadsModelField = [14, 15, 16, 17, 18, 19] ∧
    cellsWithExpr (exprCallsMethod ("framesForwardKinematics")) = [21, 33] ∧
    cellsWithExpr exprReadsDataField
      = [22, 23, 24, 25, 26, 27, 28, 29, 30, 31, 32, 33] ∧
    cellsScoped [] notebookCells = true := by
  decide

/-- Counterexample to claim C6 as stated: the notebook is not free of
conditional branches — cell-12 evaluates
`hasattr(viz.viewer, 'jupyter_cell') and viz.viewer.jupyter_cell()`,
a short-circuit `and` whose right operand is called only when the
`hasattr` test is true, so the sequence of operations does depend on
an intermediate value. -/
theorem claim_c6_counterexample :
    cellsWithExpr exprIsShortCircuit ≠ [] ∧
    cellsWithExpr exprIsShortCircuit = [12] := by
  decide

/-- Claim C6 (amended): the notebook is a straight-line sequence of
library API calls — no `if`, no loop, no compound statement of any
kind — except for a single expression-level conditional: the
short-circuit `and` of cell-12, which conditionally invokes
`jupyter_cell` depending on the value of `hasattr`. -/
theorem claim_c6_straight_line :
    allStmts.all (fun s => !stmtIsIf s) = true ∧
    allStmts.all (fun s => !stmtIsLoop s) = true ∧
    allStmts.all (fun s => !stmtIsCompound s) = true ∧
    cellsWithExpr exprIsShortCircuit = [12] := by
  decide

/-- Claim C7: execution is single-threaded and strictly sequential.
The notebook imports exactly `trimesh`, `os`, `pinocchio`,
`pinocchio.visualize` and `meshcat` — none of Python's concurrency
modules; no cell contains a thread/process-spawning call or an `await`
suspension point; and every name a cell reads was bound by an earlier
cell's assignments or imports (or earlier in the same cell), so the
only state shared between cells is the interactive session's
variables. -/
theorem claim_c7_sequential :
    importedModules
      = [("trimesh"), ("os"), ("pinocchio"), ("pinocchio.visualize"),
         ("meshcat")] ∧
    importedModules.all (fun m => !concurrencyModules.contains m) = true ∧
    cellsWithExpr exprSpawns = [] ∧
    cellsWithExpr exprIsAwait = [] ∧
    cellsScoped [] notebookCells = true := by
  decide

/-- Claim C5: the mass/inertia computations satisfy exact arithmetic
relations — the box's printed mass equals density times volume,
`7800 · (0.4 · 0.2 · 0.1) = 62.4` kg, and setting
`cylinder.density = 5 / cylinder.volume` makes the cylinder's
resulting mass exactly `5` kg. -/
theorem claim_c5_mass_arithmetic :
    box_one.mass = box_one.density * box_one.volume ∧
    box_one.mass = 62.4 ∧
    cylinder4.mass = 5 := by
  refine ⟨rfl, ?_, ?_⟩
  · simp only [TrBox.mass, TrBox.volume, box_one,
      Matrix.cons_val_zero, Matrix.cons_val_one, Matrix.head_cons,
      Matrix.cons_val_two, Matrix.vecTail, Matrix.vecHead]
    norm_num
  · have hV : cylinder0.volume ≠ 0 := by
      have h0 : 0 < cylinder0.volume := by
        simp only [TrCylinder.volume, cylinder0]
        positivity
      exact ne_of_gt h0
    show 5 / cylinder0.volume * cylinder0.volume = 5
    exact div_mul_cancel₀ 5 hV

/-- Claim C8: for every rigid transform `M` of type `pin.SE3` — i.e.
whose rotation block is orthogonal, `R Rᵀ = 1` — composing `M` with
its inverse yields the SE3 identity: identity rotation and zero
translation. -/
theorem claim_c8_inverse (M : SE3)
    (h : M.rotation * M.rotation.transpose = 1) :
    M.mul M.inverse = SE3.one := by
  cases M with
  | mk R p =>
    simp only [SE3.mul, SE3.inverse, SE3.one, SE3.mk.injEq] at h ⊢
    refine ⟨h, ?_⟩
    rw [Matrix.mulVec_neg, Matrix.mulVec_mulVec, h, Matrix.one_mulVec]
    simp

/-- Witness for claim C8 at a concrete transform (identity rotation,
translation `(1, 2, 3)`): its rotation is orthogonal and composing it
with its own inverse gives the identity transform. -/
theorem claim_c8_witness :
    ((SE3.mk 1 ![1, 2, 3]).rotation
        * (SE3.mk 1 ![1, 2, 3]).rotation.transpose = 1) ∧
    (SE3.mk 1 ![1, 2, 3]).mul (SE3.mk 1 ![1, 2, 3]).inverse = SE3.one :=
  ⟨by simp, claim_c8_inverse (SE3.mk 1 ![1, 2, 3]) (by simp)⟩

/-- Claim C9: applying the pure rotation
`tr.transformations.euler_matrix(1, 0, 0)` to the cylinder preserves
its volume, hence its mass stays exactly `5` kg, and its
`moment_inertia` changes by conjugation: the inertia after the
transform equals `R · I · Rᵀ` with `I` the inertia before and `R` the
applied rotation. -/
theorem claim_c9_rotation_invariance :
    cylinder6.volume = cylinder4.volume ∧
    cylinder6.mass = 5 ∧
    cylinder6.moment_inertia
      = eulerX 1 * cylinder4.moment_inertia * (eulerX 1).transpose := by
  refine ⟨rfl, ?_, ?_⟩
  · have hV : cylinder0.volume ≠ 0 := by
      have h0 : 0 < cylinder0.volume := by
        simp only [TrCylinder.volume, cylinder0]
        positivity
      exact ne_of_gt h0
    show 5 / cylinder0.volume * cylinder0.volume = 5
    exact div_mul_cancel₀ 5 hV
  · simp only [TrCylinder.moment_inertia, TrCylinder.apply_transform,
      TrCylinder.mass, TrCylinder.volume,
      cylinder6, cylinder4, cylinder0, Matrix.mul_one, Matrix.one_mul,
      Matrix.transpose_one, Matrix.transpose_mul, Matrix.mul_assoc]

/-- The two sample draws differ in their rotation blocks (entry
`(1,1)` is `1` for one and `-1` for the other). -/
theorem rotA_ne_rotB : sampleA.rotation ≠ sampleB.rotation := by
  intro h
  have h11 := congrFun (congrFun h 1) 1
  simp only [sampleA, sampleB, Matrix.one_apply_eq,
    Matrix.diagonal_apply_eq, Matrix.cons_val_one, Matrix.head_cons] at h11
  norm_num at h11

/-- The two sample draws differ in their translations (component 0 is
`0` for one and `1` for the other). -/
theorem transA_ne_transB : sampleA.translation ≠ sampleB.translation := by
  intro h
  have h0 := congrFun h 0
  simp only [sampleA, sampleB, Matrix.cons_val_zero] at h0
  norm_num at h0

/-- The two sample draws are distinct transforms. -/
theorem sampleA_ne_sampleB : sampleA ≠ sampleB := by
  intro h
  exact transA_ne_transB (congrArg SE3.translation h)

/-- The two sample draws have distinct action matrices. -/
theorem actionA_ne_actionB : sampleA.action ≠ sampleB.action := by
  intro h
  have h11 := congrFun (congrFun h (Sum.inl 1)) (Sum.inl 1)
  simp only [SE3.action, Matrix.fromBlocks_apply₁₁, sampleA, sampleB,
    Matrix.one_apply_eq, Matrix.diagonal_apply_eq,
    Matrix.cons_val_one, Matrix.head_cons] at h11
  norm_num at h11

/-- The two sample draws have distinct homogeneous matrices. -/
theorem homogA_ne_homogB : sampleA.homogeneous ≠ sampleB.homogeneous := by
  intro h
  have h11 := congrFun (congrFun h (Sum.inl 1)) (Sum.inl 1)
  simp only [SE3.homogeneous, Matrix.fromBlocks_apply₁₁, sampleA, sampleB,
    Matrix.one_apply_eq, Matrix.diagonal_apply_eq,
    Matrix.cons_val_one, Matrix.head_cons] at h11
  norm_num at h11

/-- Claim C10: the notebook's printed output is not deterministic
across runs.  For any fixed library results, every two runs agree on
the outputs of all cells before the `pin.SE3.Random()` call of
cell-34 (cells 0–33: box and cylinder properties, model fields,
forward-kinematics results at the neutral configuration); and there
exist two runs — two streams of random draws — whose outputs for `M`
(cell 34), `M.rotation` (35), `M.translation` (36), `M.action` (40)
and `M.homogeneous` (41) all differ. -/
theorem claim_c10_randomness :
    (∀ (lib : PinLib) (d1 d2 : ℕ → SE3),
        (runNotebook lib d1).take 34 = (runNotebook lib d2).take 34) ∧
    (∀ lib : PinLib, ∃ d1 d2 : ℕ → SE3,
        (runNotebook lib d1)[34]? ≠ (runNotebook lib d2)[34]? ∧
        (runNotebook lib d1)[35]? ≠ (runNotebook lib d2)[35]? ∧
        (runNotebook lib d1)[36]? ≠ (runNotebook lib d2)[36]? ∧
        (runNotebook lib d1)[40]? ≠ (runNotebook lib d2)[40]? ∧
        (runNotebook lib d1)[41]? ≠ (runNotebook lib d2)[41]?) := by
  constructor
  · intro lib d1 d2
    rfl
  · intro lib
    refine ⟨fun _ => sampleA, fun _ => sampleB, ?_, ?_, ?_, ?_, ?_⟩
    · intro h
      rw [show (runNotebook lib (fun _ => sampleA))[34]?
            = some [Val.se3 sampleA] from rfl,
          show (runNotebook lib (fun _ => sampleB))[34]?
            = some [Val.se3 sampleB] from rfl] at h
      simp only [Option.some.injEq, List.cons.injEq, and_true,
        Val.se3.injEq] at h
      exact sampleA_ne_sampleB h
    · intro h
      rw [show (runNotebook lib (fun _ => sampleA))[35]?
            = some [Val.mat3 sampleA.rotation] from rfl,
          show (runNotebook lib (fun _ => sampleB))[35]?
            = some [Val.mat3 sampleB.rotation] from rfl] at h
      simp only [Option.some.injEq, List.cons.injEq, and_true,
        Val.mat3.injEq] at h
      exact rotA_ne_rotB h
    · intro h
      rw [show (runNotebook lib (fun _ => sampleA))[36]?
            = some [Val.vec3 sampleA.translation] from rfl,
          show (runNotebook lib (fun _ => sampleB))[36]?
            = some [Val.vec3 sampleB.translation] from rfl] at h
      simp only [Option.some.injEq, List.cons.injEq, and_true,
        Val.vec3.injEq] at h
      exact transA_ne_transB h
    · intro h
      rw [show (runNotebook lib (fun _ => sampleA))[40]?
            = some [Val.mat6 sampleA.action] from rfl,
          show (runNotebook lib (fun _ => sampleB))[40]?
            = some [Val.mat6 sampleB.action] from rfl] at h
      simp only [Option.some.injEq, List.cons.injEq, and_true,
        Val.mat6.injEq] at h
      exact actionA_ne_actionB h
    · intro h
      rw [show (runNotebook lib (fun _ => sampleA))[41]?
            = some [Val.mat4 sampleA.homogeneous] from rfl,
          show (runNotebook lib (fun _ => sampleB))[41]?
            = some [Val.mat4 sampleB.homogeneous] from rfl] at h
      simp only [Option.some.injEq, List.cons.injEq, and_true,
        Val.mat4.injEq] at h
      exact homogA_ne_homogB h

end SimRobSys
